import Mathlib

/-!
Verification of the buri-simulator peripheral visualization layer.

Shallow embedding of the Python sources `burisim/__init__.py` and
`burisim/ui/display.py`: the HD44780 character-grid mapping, the character
ROM font rendering, the memory-page hex dump, the terminal byte bridge and
the display attach logic, together with theorems settling the spec claims.
-/

set_option maxRecDepth 8000

namespace Burisim

/-! ## Character-Grid Mapper (`HD44780View.paintEvent`)

The paint routine draws four rows from the peripheral's `ddram` buffer:

    paint_row(0*rh, self._display.ddram[:20])
    paint_row(1*rh, self._display.ddram[64:84])
    paint_row(2*rh, self._display.ddram[20:40])
    paint_row(3*rh, self._display.ddram[84:104])

A Python slice `B[a:b]` is `(B.drop a).take (b - a)`; it silently clamps to
the available elements and never raises. -/

/-- Python slice `B[a:b]` (for `a ≤ b`): drop `a`, then take `b - a`. -/
def pySlice (B : List Nat) (a b : Nat) : List Nat :=
  (B.drop a).take (b - a)

/-- The character grid drawn by `HD44780View.paintEvent`, row by row, exactly
as the four `paint_row` calls slice the `ddram` buffer. -/
def toGrid (B : List Nat) : List (List Nat) :=
  [pySlice B 0 20, pySlice B 64 84, pySlice B 20 40, pySlice B 84 104]

/-- Start address in the `ddram` buffer of row `r` of the grid. -/
def rowStart (r : Nat) : Nat :=
  match r with
  | 0 => 0
  | 1 => 64
  | 2 => 20
  | _ => 84

theorem toGrid_length (B : List Nat) : (toGrid B).length = 4 := rfl

theorem toGrid_row (B : List Nat) (r : Nat) (hr : r < 4) :
    (toGrid B).getD r [] = pySlice B (rowStart r) (rowStart r + 20) := by
  interval_cases r <;> rfl

theorem pySlice_getElem? (B : List Nat) (a c w : Nat) (hc : c < w) :
    (pySlice B a (a + w))[c]? = B[a + c]? := by
  unfold pySlice
  rw [Nat.add_sub_cancel_left, List.getElem?_take_of_lt hc, List.getElem?_drop]

theorem pySlice_length (B : List Nat) (a w : Nat) :
    (pySlice B a (a + w)).length = min w (B.length - a) := by
  simp [pySlice]

/-- C1: for every peripheral buffer of at least 104 bytes, the grid has 4
rows of 20 characters, and character `c` of row `r` is the buffer byte at
the hardware address `rowStart r + c` — row 0 from `B[0:20]`, row 1 from
`B[64:84]`, row 2 from `B[20:40]`, row 3 from `B[84:104]`, not a row-major
reshape. -/
theorem paintEvent_grid_mapping (B : List Nat) (h : 104 ≤ B.length) :
    (toGrid B).length = 4 ∧
    (∀ r, r < 4 → ((toGrid B).getD r []).length = 20) ∧
    (∀ r c, r < 4 → c < 20 →
      ((toGrid B).getD r [])[c]? = B[rowStart r + c]?) := by
  refine ⟨rfl, ?_, ?_⟩
  · intro r hr
    rw [toGrid_row B r hr, pySlice_length]
    interval_cases r <;> simp [rowStart] <;> omega
  · intro r c hr hc
    rw [toGrid_row B r hr, pySlice_getElem? B _ c 20 hc]

/-- Witness for `paintEvent_grid_mapping` at the 104-byte buffer `0,…,103`. -/
theorem paintEvent_grid_mapping_witness :
    (104 ≤ (List.range 104).length) ∧
    ((toGrid (List.range 104)).getD 1 [])[0]? = (List.range 104)[64]? := by
  refine ⟨by simp, ?_⟩
  exact (paintEvent_grid_mapping (List.range 104) (by simp)).2.2 1 0
    (by omega) (by omega)

/-- C2 counterexample: on an 80-byte buffer the mapper does NOT fail — it
silently renders partial rows: row 1 comes out with only 16 characters and
row 3 is empty. The code raises no BufferTooSmall error. -/
theorem short_buffer_truncates :
    ((toGrid (List.replicate 80 0)).getD 1 []).length = 16 ∧
    ((toGrid (List.replicate 80 0)).getD 3 []).length = 0 ∧
    (toGrid (List.replicate 80 0)).length = 4 := by
  decide

/-- C2 amended: on a buffer shorter than 104 bytes the mapper still
succeeds; each row is the corresponding slice silently clamped to the bytes
actually present (rows 1 and 3 may come out shorter than 20 characters or
empty), and no wrap-around occurs: within the 20-column window, character
`c` of row `r` is exactly the byte at address `rowStart r + c` when that
address exists, and absent otherwise. -/
theorem short_buffer_grid (B : List Nat) (h : B.length < 104) :
    (toGrid B).length = 4 ∧
    (∀ r, r < 4 → ((toGrid B).getD r []).length = min 20 (B.length - rowStart r)) ∧
    (∀ r c, r < 4 → c < 20 →
      ((toGrid B).getD r [])[c]? = B[rowStart r + c]?) := by
  refine ⟨rfl, ?_, ?_⟩
  · intro r hr
    rw [toGrid_row B r hr, pySlice_length]
  · intro r c hr hc
    rw [toGrid_row B r hr, pySlice_getElem? B _ c 20 hc]

/-- Witness for `short_buffer_grid` at the all-zero 80-byte buffer. -/
theorem short_buffer_grid_witness :
    ((List.replicate 80 0).length < 104) ∧
    ((toGrid (List.replicate 80 0)).getD 3 []).length =
      min 20 ((List.replicate 80 0).length - rowStart 3) := by
  refine ⟨by simp, ?_⟩
  exact (short_buffer_grid (List.replicate 80 0) (by simp)).2.1 3 (by omega)

/-! ## Font Atlas (`HD44780View._update_font` and `CHAR_ROM`)

The character ROM is a fixed table of glyph definitions, one per byte
value; `render_char` pads each definition to exactly 8 row patterns with
`(list(c) + [0]*8)[:8]` and lights pixel column `c_idx` of a row pattern
`r_def` exactly when `r_def & (1 << (4-c_idx))` is non-zero. -/

def CHAR_ROM : List (List Nat) := [
  [0, 0, 0, 0, 0, 0, 0],
  [0, 0, 0, 0, 0, 0, 0],
  [0, 0, 0, 0, 0, 0, 0],
  [0, 0, 0, 0, 0, 0, 0],
  [0, 0, 0, 0, 0, 0, 0],
  [0, 0, 0, 0, 0, 0, 0],
  [0, 0, 0, 0, 0, 0, 0],
  [0, 0, 0, 0, 0, 0, 0],
  [0, 0, 0, 0, 0, 0, 0],
  [0, 0, 0, 0, 0, 0, 0],
  [0, 0, 0, 0, 0, 0, 0],
  [0, 0, 0, 0, 0, 0, 0],
  [0, 0, 0, 0, 0, 0, 0],
  [0, 0, 0, 0, 0, 0, 0],
  [0, 0, 0, 0, 0, 0, 0],
  [0, 0, 0, 0, 0, 0, 0],
  [0, 0, 0, 0, 0, 0, 0],
  [0, 0, 0, 0, 0, 0, 0],
  [0, 0, 0, 0, 0, 0, 0],
  [0, 0, 0, 0, 0, 0, 0],
  [0, 0, 0, 0, 0, 0, 0],
  [0, 0, 0, 0, 0, 0, 0],
  [0, 0, 0, 0, 0, 0, 0],
  [0, 0, 0, 0, 0, 0, 0],
  [0, 0, 0, 0, 0, 0, 0],
  [0, 0, 0, 0, 0, 0, 0],
  [0, 0, 0, 0, 0, 0, 0],
  [0, 0, 0, 0, 0, 0, 0],
  [0, 0, 0, 0, 0, 0, 0],
  [0, 0, 0, 0, 0, 0, 0],
  [0, 0, 0, 0, 0, 0, 0],
  [0, 0, 0, 0, 0, 0, 0],
  [0, 0, 0, 0, 0, 0, 0],
  [4, 4, 4, 4, 4, 0, 4],
  [10, 10, 10, 0, 0, 0, 0],
  [10, 10, 31, 10, 31, 10, 10],
  [4, 15, 20, 14, 5, 30, 4],
  [24, 25, 2, 4, 8, 19, 3],
  [12, 18, 20, 8, 21, 18, 13],
  [12, 4, 8, 0, 0, 0, 0],
  [2, 4, 8, 8, 8, 4, 2],
  [8, 4, 2, 2, 2, 4, 8],
  [0, 4, 21, 14, 21, 4, 0],
  [0, 4, 4, 31, 4, 4, 0],
  [0, 0, 0, 0, 12, 4, 8],
  [0, 0, 0, 31, 0, 0, 0],
  [0, 0, 0, 0, 0, 12, 12],
  [0, 1, 2, 4, 8, 16, 0],
  [14, 17, 19, 21, 25, 17, 14],
  [4, 12, 4, 4, 4, 4, 14],
  [14, 17, 1, 2, 4, 8, 31],
  [31, 2, 4, 2, 1, 17, 14],
  [2, 6, 10, 18, 31, 2, 2],
  [31, 16, 30, 1, 1, 17, 14],
  [6, 8, 16, 30, 17, 17, 14],
  [31, 1, 2, 4, 8, 8, 8],
  [14, 17, 17, 14, 17, 17, 14],
  [14, 17, 17, 15, 1, 2, 12],
  [0, 12, 12, 0, 12, 12, 0],
  [0, 12, 12, 0, 12, 4, 8],
  [2, 4, 8, 16, 8, 4, 2],
  [0, 0, 31, 0, 31, 0, 0],
  [16, 8, 4, 2, 4, 8, 16],
  [14, 17, 1, 2, 4, 0, 4],
  [14, 17, 1, 13, 21, 21, 14],
  [14, 17, 17, 17, 31, 17, 17],
  [30, 17, 17, 30, 17, 17, 30],
  [14, 17, 16, 16, 16, 17, 14],
  [30, 17, 17, 17, 17, 17, 30],
  [31, 16, 16, 30, 16, 16, 31],
  [31, 16, 16, 30, 16, 16, 16],
  [14, 17, 16, 23, 17, 17, 15],
  [17, 17, 17, 31, 17, 17, 17],
  [14, 4, 4, 4, 4, 4, 14],
  [7, 2, 2, 2, 2, 18, 12],
  [17, 18, 20, 24, 20, 18, 17],
  [16, 16, 16, 16, 16, 16, 31],
  [17, 27, 21, 21, 17, 17, 17],
  [17, 17, 25, 21, 19, 17, 17],
  [14, 17, 17, 17, 17, 17, 14],
  [30, 17, 17, 30, 16, 16, 16],
  [14, 17, 17, 17, 21, 18, 13],
  [30, 17, 17, 30, 20, 18, 17],
  [15, 16, 16, 14, 1, 1, 30],
  [31, 4, 4, 4, 4, 4, 4],
  [17, 17, 17, 17, 17, 17, 14],
  [17, 17, 17, 17, 17, 10, 4],
  [17, 17, 17, 21, 21, 21, 10],
  [17, 17, 10, 4, 10, 17, 17],
  [17, 17, 17, 10, 4, 4, 4],
  [31, 1, 2, 4, 8, 16, 31],
  [14, 8, 8, 8, 8, 8, 14],
  [17, 10, 31, 4, 31, 4, 4],
  [14, 2, 2, 2, 2, 2, 14],
  [4, 10, 17, 0, 0, 0, 0],
  [0, 0, 0, 0, 0, 0, 31],
  [8, 4, 2, 0, 0, 0, 0],
  [0, 0, 14, 1, 15, 17, 15],
  [16, 16, 22, 25, 17, 17, 30],
  [0, 0, 14, 16, 16, 17, 14],
  [1, 1, 13, 19, 17, 17, 15],
  [0, 0, 14, 17, 31, 16, 14],
  [6, 9, 8, 28, 8, 8, 8],
  [0, 0, 15, 17, 15, 1, 14],
  [16, 16, 22, 25, 17, 17, 17],
  [4, 0, 12, 4, 4, 4, 14],
  [2, 6, 2, 2, 2, 18, 12],
  [16, 16, 18, 20, 24, 20, 18],
  [12, 4, 4, 4, 4, 4, 14],
  [0, 0, 26, 21, 21, 17, 17],
  [0, 0, 22, 25, 17, 17, 17],
  [0, 0, 14, 17, 17, 17, 14],
  [0, 0, 30, 17, 30, 16, 16],
  [0, 0, 13, 19, 15, 1, 1],
  [0, 0, 22, 25, 16, 16, 16],
  [0, 0, 15, 16, 14, 1, 30],
  [8, 8, 28, 8, 8, 9, 6],
  [0, 0, 17, 17, 17, 19, 13],
  [0, 0, 17, 17, 17, 10, 4],
  [0, 0, 17, 17, 21, 21, 10],
  [0, 0, 17, 10, 4, 10, 17],
  [0, 0, 17, 17, 15, 1, 14],
  [0, 0, 31, 2, 4, 8, 31],
  [2, 4, 4, 8, 4, 4, 2],
  [4, 4, 4, 4, 4, 4, 4],
  [8, 4, 4, 2, 4, 4, 8],
  [0, 4, 2, 31, 2, 4, 0],
  [0, 4, 8, 31, 8, 4, 0],
  [0, 0, 0, 0, 0, 0, 0],
  [0, 0, 0, 0, 0, 0, 0],
  [0, 0, 0, 0, 0, 0, 0],
  [0, 0, 0, 0, 0, 0, 0],
  [0, 0, 0, 0, 0, 0, 0],
  [0, 0, 0, 0, 0, 0, 0],
  [0, 0, 0, 0, 0, 0, 0],
  [0, 0, 0, 0, 0, 0, 0],
  [0, 0, 0, 0, 0, 0, 0],
  [0, 0, 0, 0, 0, 0, 0],
  [0, 0, 0, 0, 0, 0, 0],
  [0, 0, 0, 0, 0, 0, 0],
  [0, 0, 0, 0, 0, 0, 0],
  [0, 0, 0, 0, 0, 0, 0],
  [0, 0, 0, 0, 0, 0, 0],
  [0, 0, 0, 0, 0, 0, 0],
  [0, 0, 0, 0, 0, 0, 0],
  [0, 0, 0, 0, 0, 0, 0],
  [0, 0, 0, 0, 0, 0, 0],
  [0, 0, 0, 0, 0, 0, 0],
  [0, 0, 0, 0, 0, 0, 0],
  [0, 0, 0, 0, 0, 0, 0],
  [0, 0, 0, 0, 0, 0, 0],
  [0, 0, 0, 0, 0, 0, 0],
  [0, 0, 0, 0, 0, 0, 0],
  [0, 0, 0, 0, 0, 0, 0],
  [0, 0, 0, 0, 0, 0, 0],
  [0, 0, 0, 0, 0, 0, 0],
  [0, 0, 0, 0, 0, 0, 0],
  [0, 0, 0, 0, 0, 0, 0],
  [0, 0, 0, 0, 0, 0, 0],
  [0, 0, 0, 0, 0, 0, 0],
  [0, 0, 0, 0, 0, 0, 0],
  [0, 0, 0, 0, 28, 20, 28],
  [7, 4, 4, 4, 0, 0, 0],
  [0, 0, 0, 4, 4, 4, 28],
  [0, 0, 0, 0, 16, 8, 4],
  [0, 0, 0, 12, 12, 0, 0],
  [0, 31, 1, 31, 1, 2, 4],
  [0, 0, 31, 1, 6, 4, 8],
  [0, 0, 2, 4, 12, 20, 4],
  [0, 0, 4, 31, 17, 1, 6],
  [0, 0, 0, 31, 4, 4, 31],
  [0, 0, 2, 31, 6, 10, 18],
  [0, 0, 8, 31, 9, 10, 8],
  [0, 0, 0, 14, 2, 2, 31],
  [0, 0, 30, 2, 30, 2, 30],
  [0, 0, 0, 21, 21, 1, 6],
  [0, 0, 0, 0, 31, 0, 0],
  [31, 1, 5, 6, 4, 4, 8],
  [1, 2, 4, 12, 20, 4, 4],
  [4, 31, 17, 17, 1, 2, 4],
  [0, 0, 31, 4, 4, 4, 31],
  [2, 31, 2, 6, 10, 18, 2],
  [8, 31, 9, 9, 9, 9, 18],
  [4, 31, 4, 31, 4, 4, 4],
  [0, 15, 9, 17, 1, 2, 12],
  [8, 15, 18, 2, 2, 2, 4],
  [0, 31, 1, 1, 1, 1, 31],
  [10, 31, 10, 10, 2, 4, 8],
  [0, 24, 1, 25, 1, 2, 28],
  [0, 31, 1, 2, 4, 10, 17],
  [8, 31, 9, 10, 8, 8, 7],
  [0, 17, 17, 9, 1, 2, 12],
  [0, 15, 9, 21, 3, 2, 12],
  [2, 28, 4, 31, 4, 4, 8],
  [0, 21, 21, 1, 1, 2, 4],
  [14, 0, 31, 4, 4, 4, 8],
  [8, 8, 8, 12, 10, 8, 8],
  [4, 4, 31, 4, 4, 8, 16],
  [0, 14, 0, 0, 0, 0, 31],
  [0, 31, 1, 10, 4, 10, 16],
  [4, 31, 2, 4, 14, 21, 4],
  [2, 2, 2, 2, 2, 4, 8],
  [0, 4, 2, 17, 17, 17, 17],
  [16, 16, 31, 16, 16, 16, 15],
  [0, 31, 1, 1, 1, 2, 12],
  [0, 8, 20, 2, 1, 1, 0],
  [4, 31, 4, 4, 21, 21, 4],
  [0, 31, 1, 1, 10, 4, 2],
  [0, 14, 0, 14, 0, 14, 1],
  [0, 4, 8, 16, 17, 31, 1],
  [0, 1, 1, 10, 4, 10, 16],
  [0, 31, 8, 31, 8, 8, 7],
  [8, 8, 31, 9, 10, 8, 8],
  [0, 14, 2, 2, 2, 2, 31],
  [0, 31, 1, 31, 1, 1, 31],
  [14, 0, 31, 1, 1, 2, 4],
  [18, 18, 18, 18, 2, 4, 8],
  [0, 4, 20, 20, 21, 21, 22],
  [0, 16, 16, 17, 18, 20, 24],
  [0, 31, 17, 17, 17, 17, 31],
  [0, 31, 17, 17, 1, 2, 4],
  [0, 24, 0, 1, 1, 2, 28],
  [4, 18, 8, 0, 0, 0, 0],
  [28, 20, 28, 0, 0, 0, 0],
  [0, 0, 9, 21, 18, 18, 13],
  [10, 0, 14, 1, 15, 17, 15],
  [0, 14, 17, 30, 17, 30, 16],
  [0, 0, 14, 16, 12, 17, 14],
  [0, 17, 17, 17, 19, 29, 16],
  [0, 0, 15, 20, 18, 17, 14],
  [0, 6, 9, 17, 17, 30, 16],
  [0, 15, 17, 17, 17, 15, 1],
  [0, 0, 7, 4, 4, 20, 8],
  [2, 26, 2, 0, 0, 0, 0],
  [2, 0, 6, 2, 2, 2, 2],
  [0, 20, 8, 20, 0, 0, 0],
  [4, 14, 20, 21, 14, 4, 0],
  [8, 8, 28, 8, 28, 8, 15],
  [14, 0, 22, 25, 17, 17, 17],
  [10, 0, 14, 17, 17, 17, 14],
  [0, 22, 25, 17, 17, 30, 16],
  [0, 13, 19, 17, 17, 15, 1],
  [14, 17, 31, 17, 17, 14, 0],
  [0, 0, 0, 0, 11, 21, 26],
  [0, 14, 17, 17, 10, 27, 0],
  [10, 0, 17, 17, 17, 19, 13],
  [31, 16, 8, 4, 8, 16, 31],
  [0, 31, 10, 10, 10, 19, 0],
  [31, 0, 17, 10, 4, 10, 17],
  [0, 17, 17, 17, 17, 15, 1],
  [1, 30, 4, 31, 4, 4, 0],
  [0, 31, 8, 15, 9, 17, 0],
  [0, 31, 21, 31, 17, 17, 0],
  [0, 0, 4, 0, 31, 0, 4],
  [0, 0, 0, 0, 0, 0, 0],
  [31, 31, 31, 31, 31, 31, 31]
]

/-- `(list(c) + [0]*8)[:8]`: the 8 row patterns of the glyph rendered from
a character-ROM definition `c`. -/
def render_char (c : List Nat) : List Nat :=
  (c ++ List.replicate 8 0).take 8

/-- `self._font = list(render_char(c) for c in CHAR_ROM)`. -/
def font : List (List Nat) :=
  CHAR_ROM.map render_char

/-- `QtGui.qRgb(r, g, b)`: an opaque 32-bit 0xFFRRGGBB color value. -/
def qRgb (r g b : Nat) : Nat :=
  0xFF000000 + r * 0x10000 + g * 0x100 + b

def lcd_bg : Nat := qRgb 0 0 20

def lcd_off : Nat := qRgb 60 40 20

def lcd_on : Nat := qRgb 250 220 20

/-- Color painted for pixel column `cidx` (0 = leftmost) of a glyph row
with pattern `rdef`: `lcd_off if r_def & (1<<(4-c_idx)) == 0 else lcd_on`. -/
def pixelColor (rdef cidx : Nat) : Nat :=
  if rdef &&& (1 <<< (4 - cidx)) == 0 then lcd_off else lcd_on

/-- C3: the character ROM has exactly 256 glyph definitions, one per byte
value (lookup at any `b < 256` succeeds), and a byte value whose definition
is blank (all-zero) renders to the all-zero 8-row glyph. -/
theorem char_rom_table (b : Nat) (hb : b < 256) :
    CHAR_ROM.length = 256 ∧
    CHAR_ROM[b]?.isSome = true ∧
    (CHAR_ROM.getD b [] = List.replicate 7 0 ->
      render_char (CHAR_ROM.getD b []) = List.replicate 8 0) := by
  have hl : CHAR_ROM.length = 256 := by decide
  refine ⟨hl, ?_, ?_⟩
  · have hb' : b < CHAR_ROM.length := by omega
    simp [List.getElem?_eq_getElem hb']
  · intro h
    rw [h]
    decide

/-- Witness for `char_rom_table` at byte value 0 (a blank definition). -/
theorem char_rom_table_witness :
    (0 < 256) ∧ CHAR_ROM[0]?.isSome = true ∧
      render_char (CHAR_ROM.getD 0 []) = List.replicate 8 0 := by
  have h := char_rom_table 0 (by decide)
  exact ⟨by decide, h.2.1, h.2.2 (by decide)⟩

/-- C4: glyph lookup is total — the font has one entry per byte value
0-255, and every glyph bitmap has exactly 8 rows, each row pattern fitting
in 5 bits; the 7-row ROM definitions are padded to 8 rows with an all-zero
row. -/
theorem font_lookup_total :
    font.length = 256 ∧
    (∀ b, b < 256 -> (font.getD b []).length = 8 ∧ ∀ r ∈ font.getD b [], r < 32) ∧
    (∀ b, b < 256 -> font.getD b [] = CHAR_ROM.getD b [] ++ [0]) := by
  refine ⟨by decide, by decide, by decide⟩

/-- Witness for `font_lookup_total` at byte value 0x41. -/
theorem font_lookup_total_witness :
    (65 < 256) ∧ (font.getD 65 []).length = 8 ∧
    font.getD 65 [] = CHAR_ROM.getD 65 [] ++ [0] := by
  have h := font_lookup_total
  exact ⟨by decide, (h.2.1 65 (by decide)).1, h.2.2 65 (by decide)⟩

/-- C5 counterexample: pixel 0 (the leftmost column) is NOT governed by bit
0 of the row pattern: for pattern 1 (only bit 0 set) pixel 0 is unlit, and
for pattern 16 (bit 0 clear) pixel 0 is lit. -/
theorem pixel_bit_mismatch :
    pixelColor 1 0 = lcd_off ∧ Nat.testBit 1 0 = true ∧
    pixelColor 16 0 = lcd_on ∧ Nat.testBit 16 0 = false := by
  decide

/-- C5 amended: for every glyph row pattern `rdef` and column index
`cidx < 5`, the pixel at column `cidx` is lit if and only if bit
`4 - cidx` of the pattern is set (most significant of the 5 bits is the
leftmost pixel). -/
theorem pixel_iff_bit (rdef cidx : Nat) (hc : cidx < 5) :
    pixelColor rdef cidx = lcd_on ↔ rdef.testBit (4 - cidx) = true := by
  unfold pixelColor
  have hs : (1 : Nat) <<< (4 - cidx) = 2 ^ (4 - cidx) := by
    rw [Nat.shiftLeft_eq, one_mul]
  rw [hs, Nat.and_two_pow]
  rcases h : rdef.testBit (4 - cidx) with _ | _
  · simp [lcd_on, lcd_off, qRgb]
  · simp [lcd_on, lcd_off, qRgb]

/-- Witness for `pixel_iff_bit`: pattern 31 at column 0 is lit and bit 4 of
31 is set. -/
theorem pixel_iff_bit_witness :
    (0 < 5) ∧ (pixelColor 31 0 = lcd_on ↔ Nat.testBit 31 (4 - 0) = true) :=
  ⟨by decide, pixel_iff_bit 31 0 (by decide)⟩

/-! ## Memory Page Viewer (`MemoryView` in `burisim/__init__.py`)

`setPage` stores the requested page and refreshes; `_refresh_mem` reads the
256-byte window starting at `0x100 * page` in 16-byte lines and renders
each line as offset, hex pairs grouped 8+8, and an ASCII gloss. -/

/-- The page-selection state of the memory viewer (`self._page`). -/
structure MemoryView where
  page : Int

/-- `MemoryView.setPage`: stores `v` into `self._page` unconditionally (and
then refreshes). -/
def setPage (s : MemoryView) (v : Int) : MemoryView :=
  { s with page := v }

/-- Start address of the window `_refresh_mem` reads: `0x100 * self._page`. -/
def refreshStart (s : MemoryView) : Int :=
  0x100 * s.page

/-- One uppercase hexadecimal digit. -/
def hexDigit (n : Nat) : Char :=
  if n < 10 then Char.ofNat (48 + n) else Char.ofNat (55 + n)

/-- Fuel-driven digit extraction (structural, so it reduces in the
kernel); `fuel` bounds the number of digits produced. -/
def hexRepAux : Nat → Nat → List Char
  | 0, _ => []
  | _ + 1, 0 => []
  | fuel + 1, n + 1 => hexRepAux fuel ((n + 1) / 16) ++ [hexDigit ((n + 1) % 16)]

/-- Big-endian uppercase hexadecimal digits of `n` (empty for 0). -/
def hexRep (n : Nat) : List Char :=
  hexRepAux n n

/-- Python format `0wX`: `n` in uppercase hex, zero-padded to at least `w`
digits. -/
def toHexMin (n w : Nat) : String :=
  let ds := if n = 0 then [Char.ofNat 48] else hexRep n
  String.mk (List.replicate (w - ds.length) (Char.ofNat 48) ++ ds)

/-- Python format `w` on a string: left-aligned, space-padded to at least
width `w`. -/
def padTo (s : String) (w : Nat) : String :=
  s ++ String.mk (List.replicate (w - s.length) ' ')

/-- `contents[o:o+8] for o in range(0, len(contents), 8)`: split into
chunks of 8. -/
def chunks8 : List Nat → List (List Nat)
  | [] => []
  | a1 :: a2 :: a3 :: a4 :: a5 :: a6 :: a7 :: a8 :: rest =>
      [a1, a2, a3, a4, a5, a6, a7, a8] :: chunks8 rest
  | l => [l]

/-- One character of the ASCII gloss: `chr(b) if b>=32 and b<127 else` a
dot. -/
def glossChar (b : Nat) : Char :=
  if 32 ≤ b ∧ b < 127 then Char.ofNat b else '.'

/-- `MemoryView._refresh_mem.render_line`: offset in 4-digit hex, two
spaces, the hex pairs of the bytes grouped 8+8 (double space between
groups) padded to 48 columns, two spaces, and the 16-character ASCII gloss
between vertical bars. -/
def render_line (page offset : Nat) (contents : List Nat) : String :=
  let hexrepr := String.intercalate "  "
    ((chunks8 contents).map (fun grp =>
      String.intercalate " " (grp.map (fun b => toHexMin b 2))))
  let asciirepr := String.mk (contents.map glossChar)
  toHexMin (page * 256 + offset) 4 ++ "  " ++ padTo hexrepr 48 ++ "  |" ++
    padTo asciirepr 16 ++ "|"

/-- `mem_contents`: the 16 bytes of one line, read from memory starting at
`0x100 * page + lineOffset`. -/
def memLineContents (m : Nat → Nat) (page lineOffset : Nat) : List Nat :=
  (List.range 16).map (fun i => m (256 * page + lineOffset + i))

/-- A concrete memory whose bytes 512-527 hold 0x00..0x0F and which is zero
elsewhere. -/
def demoMemory : Nat → Nat :=
  fun a => if 512 ≤ a ∧ a < 528 then a - 512 else 0

/-- C6 counterexample: `setPage` performs no range check — after
`setPage(300)` on a viewer at page 0, `page()` returns 300 (not the old
page 0) and the next refresh reads the window starting at `0x100 * 300`,
although 300 is outside 0-255. -/
theorem setPage_out_of_range_accepted :
    (setPage { page := 0 } 300).page = 300 ∧
    refreshStart (setPage { page := 0 } 300) = 76800 ∧
    ¬ ((300 : Int) ≤ 255) := by
  refine ⟨rfl, rfl, by omega⟩

/-- C6 amended: `setPage` stores any integer unconditionally — the new
value is always what a subsequent `page()` returns and what the next
refresh uses as window base; the 0-255 restriction is enforced only by the
spin-box widget (`sb.setRange(0, 0xff)`) feeding the setter, not by the
setter itself. -/
theorem setPage_stores_any (s : MemoryView) (v : Int) :
    (setPage s v).page = v ∧ refreshStart (setPage s v) = 256 * v :=
  ⟨rfl, rfl⟩

/-- C7: with page 2 and memory bytes 512-527 equal to 0x00..0x0F, the first
rendered line is exactly
`0200  00 01 02 03 04 05 06 07  08 09 0A 0B 0C 0D 0E 0F  |................|`,
and every byte below 32 or at least 127 renders as a dot in the ASCII
gloss. -/
theorem refresh_line_rendering :
    memLineContents demoMemory 2 0 = List.range 16 ∧
    render_line 2 0 (memLineContents demoMemory 2 0) =
      "0200  00 01 02 03 04 05 06 07  08 09 0A 0B 0C 0D 0E 0F  |................|" ∧
    (∀ b, b < 32 ∨ 127 ≤ b → glossChar b = Char.ofNat 46) := by
  refine ⟨by decide, by decide, ?_⟩
  intro b hb
  have hnp : ¬ (32 ≤ b ∧ b < 127) := by omega
  simp only [glossChar, if_neg hnp]

/-- Witness: byte 0x07 (and any non-printable byte) renders as a dot. -/
theorem refresh_line_rendering_witness :
    glossChar 7 = Char.ofNat 46 :=
  refresh_line_rendering.2.2 7 (Or.inl (by omega))

/-! ## Terminal Bridge (`TerminalView`)

`receiveByte` appends one byte to the guarded input buffer; `_have_input`
atomically swaps the buffer out and feeds the drained bytes, in order, to
the terminal-emulation engine (`self.stream.feed(bs)`), which is an opaque
external collaborator updating the screen state. `keyReleaseEvent` emits
one outbound byte per Unicode code point of the event text, in order. -/

/-- Bridge state: the pending inbound bytes (`self._input_buffer`) and the
decoder's screen state (`self.screen`), opaque of type `σ`. -/
structure TerminalView (σ : Type) where
  queue : List Nat
  screen : σ

/-- `TerminalView.receiveByte`: append one byte to the input buffer. -/
def receiveByte {σ : Type} (s : TerminalView σ) (b : Nat) : TerminalView σ :=
  { s with queue := s.queue ++ [b] }

/-- A sequence of `receiveByte` calls, one per byte. -/
def receiveBytes {σ : Type} (s : TerminalView σ) (bs : List Nat) : TerminalView σ :=
  bs.foldl receiveByte s

/-- `TerminalView._have_input`: swap the buffer contents out, clear it, and
feed everything drained to the decoder `feed` in one batch. -/
def drainInput {σ : Type} (feed : σ → List Nat → σ) (s : TerminalView σ) :
    TerminalView σ :=
  { queue := [], screen := feed s.screen s.queue }

/-- `TerminalView.keyReleaseEvent`: for non-empty event text, emit
`ord(c)` for each code point `c` in order; empty text emits nothing. -/
def keyReleaseEmits (t : List Char) : List Nat :=
  if t = [] then [] else t.map Char.toNat

theorem receiveBytes_queue {σ : Type} (s : TerminalView σ) (bs : List Nat) :
    (receiveBytes s bs).queue = s.queue ++ bs ∧
    (receiveBytes s bs).screen = s.screen := by
  induction bs generalizing s with
  | nil => simp [receiveBytes]
  | cons b bs ih =>
      have h := ih (receiveByte s b)
      simp [receiveBytes, List.foldl_cons] at h ⊢
      simp [receiveByte] at h
      exact h

/-- C8: enqueue-then-drain is batching-insensitive and order-preserving:
for any decoder `feed`, any starting state and any byte sequences `xs` and
`ys`, enqueuing `xs` then `ys` and draining once gives the same decoded
screen state (and the same emptied queue) as enqueuing `xs ++ ys` and
draining once; moreover the drained batch handed to the decoder is exactly
the bytes in FIFO enqueue order. -/
theorem enqueue_drain_batching {σ : Type} (feed : σ → List Nat → σ)
    (s : TerminalView σ) (xs ys : List Nat) :
    drainInput feed (receiveBytes (receiveBytes s xs) ys) =
      drainInput feed (receiveBytes s (xs ++ ys)) ∧
    (receiveBytes s (xs ++ ys)).queue = s.queue ++ xs ++ ys := by
  have h1 := receiveBytes_queue (receiveBytes s xs) ys
  have h2 := receiveBytes_queue s xs
  have h3 := receiveBytes_queue s (xs ++ ys)
  constructor
  · unfold drainInput
    rw [h1.1, h1.2, h2.1, h2.2, h3.1, h3.2, List.append_assoc]
  · rw [h3.1, List.append_assoc]

/-- C9: one outbound emission per Unicode code point of a non-empty
keystroke text, in the original order: position `i` of the emitted byte
list is exactly the code point at position `i` of the text, and nothing
else is emitted. -/
theorem keystroke_emissions (t : List Char) (h : t ≠ []) :
    (keyReleaseEmits t).length = t.length ∧
    ∀ i : Nat, (keyReleaseEmits t)[i]? = t[i]?.map Char.toNat := by
  unfold keyReleaseEmits
  rw [if_neg h]
  exact ⟨List.length_map t Char.toNat, fun i => List.getElem?_map Char.toNat t i⟩

/-- Witness for `keystroke_emissions` on the two-character text "hi". -/
theorem keystroke_emissions_witness :
    (keyReleaseEmits [Char.ofNat 104, Char.ofNat 105]).length = 2 ∧
    (keyReleaseEmits [Char.ofNat 104, Char.ofNat 105])[0]? = some 104 := by
  have h := keystroke_emissions [Char.ofNat 104, Char.ofNat 105] (by decide)
  refine ⟨h.1, ?_⟩
  rw [h.2 0]
  decide

/-! ## Display attachment (`HD44780View.display` setter)

    if self._display is not None:
        self._display.update.disconnect(self._display_update)
    self._display = d
    self._display.update.connect(self._display_update)

Assigning `None` fails at the final `connect` line (attribute access on
`None` raises), so a successful assignment always ends connected to
exactly the new display's update signal. -/

/-- LCD view attachment state: the current display source (by identity)
and the list of update signals connected to `self._display_update`. -/
structure HD44780View where
  display : Option Nat
  connections : List Nat

/-- The `display` property setter: disconnect the previous display's
update signal if one is attached, store the new value, then connect the
new display's update signal — which fails (`none`) when the new value is
`None`, since `None.update` raises. -/
def setDisplay (s : HD44780View) (d : Option Nat) : Option HD44780View :=
  let conns :=
    match s.display with
    | some old => s.connections.erase old
    | none => s.connections
  match d with
  | some x => some { display := some x, connections := conns ++ [x] }
  | none => none

/-- The view is subscribed to exactly its attached display's signal (and
to nothing when detached). -/
def subscriptionInvariant (s : HD44780View) : Prop :=
  s.connections = s.display.toList

/-- C10: from any state subscribed consistently, assigning a non-None
display yields a state connected to exactly the one new display's update
signal (the old subscription, if any, was disconnected first), so the view
is subscribed to at most one source; assigning None does not produce a
detached-but-consistent view — it fails. -/
theorem display_setter_single_subscription (s : HD44780View) (x : Nat)
    (h : subscriptionInvariant s) :
    setDisplay s (some x) =
      some { display := some x, connections := [x] } ∧
    (∀ s2, setDisplay s (some x) = some s2 →
      subscriptionInvariant s2 ∧ s2.connections.length ≤ 1) ∧
    setDisplay s none = none := by
  unfold subscriptionInvariant at h
  have hkey : setDisplay s (some x) =
      some { display := some x, connections := [x] } := by
    unfold setDisplay
    cases hd : s.display with
    | none => rw [hd] at h; simp [h]
    | some old => rw [hd] at h; simp [h, List.erase_cons_head]
  refine ⟨hkey, ?_, by unfold setDisplay; cases s.display <;> simp⟩
  intro s2 hs2
  rw [hkey] at hs2
  cases hs2
  exact ⟨rfl, by simp⟩

/-- Witness for `display_setter_single_subscription`: reattaching display 5
to a view currently attached to display 3. -/
theorem display_setter_single_subscription_witness :
    subscriptionInvariant { display := some 3, connections := [3] } ∧
    setDisplay { display := some 3, connections := [3] } (some 5) =
      some { display := some 5, connections := [5] } ∧
    setDisplay { display := some 3, connections := [3] } none = none := by
  have hinv : subscriptionInvariant { display := some 3, connections := [3] } := by
    unfold subscriptionInvariant
    decide
  have h := display_setter_single_subscription
    { display := some 3, connections := [3] } 5 hinv
  exact ⟨hinv, h.1, h.2.2⟩

end Burisim
